import Mathlib

/-!
Verification development for the CallShift on-call assignment service
(src/app.py). The Flask routes and helper functions are embedded as pure
Lean functions over an explicit database state; timestamps are natural
numbers, the PostgreSQL transaction in set_on_call_number is modelled with
commit-or-rollback visibility (changes become visible only at conn.commit,
so a raise at any statement or at the commit leaves the visible state
unchanged), and the outbound Telepo HTTP call is modelled by its request
value plus a parameter for the provider outcome.
-/

namespace CallShift

/-- A row of the users table (src/app.py init_db, lines 118-129). The pin
field stores the salted digest, never the raw PIN. -/
structure User where
  id : Nat
  pin : String
  phone : String
  name : String
  email : Option String
  division : String
  last_login : Option Nat
deriving Repr, DecidableEq

/-- A row of the on_call ledger (src/app.py lines 131-141). end_time = none
models the SQL NULL of an open (currently active) assignment. -/
structure OnCallRow where
  phone : String
  user_id : Nat
  division : String
  start_time : Nat
  end_time : Option Nat
deriving Repr, DecidableEq

/-- A row of the audit_log table (src/app.py lines 143-153). -/
structure AuditRow where
  event_type : String
  user_id : Option Nat
  details : String
  ip_address : String
deriving Repr, DecidableEq

/-- The visible (committed) state of the three durable relations. -/
structure DBState where
  users : List User
  on_call : List OnCallRow
  audit_log : List AuditRow
deriving Repr, DecidableEq

def emptyDB : DBState := ⟨[], [], []⟩

/-- hash_pin (src/app.py lines 102-107): sha256 of the PIN concatenated
with the process-wide salt. The sha256 digest itself is kept abstract as a
function parameter; the claims only depend on the digest being computed
deterministically from pin ++ salt. -/
def hash_pin (sha256 : String → String) (salt : String) (pin : String) : String :=
  sha256 (pin ++ salt)

/-- RATE_LIMIT (src/app.py line 38). -/
def RATE_LIMIT : Nat := 5

/-- RATE_PERIOD (src/app.py line 39). -/
def RATE_PERIOD : Nat := 60

/-- The pruning step of the rate_limited decorator (src/app.py lines
63-67): keep the timestamps t with current_time - t < RATE_PERIOD. With
Nat truncated subtraction a timestamp in the future of now gives 0, which
is kept, exactly as a negative float difference is kept by the code. -/
def pruneWindow (rec : List Nat) (now : Nat) : List Nat :=
  rec.filter (fun t => now - t < RATE_PERIOD)

/-- The admission decision of the rate_limited decorator (src/app.py lines
54-76) for one source address whose recorded timestamps are rec: prune,
then reject without recording when RATE_LIMIT entries remain, else record
now and accept. Returns (admitted, new record). -/
def rate_limited_check (rec : List Nat) (now : Nat) : Bool × List Nat :=
  let pruned := pruneWindow rec now
  if RATE_LIMIT ≤ pruned.length then (false, pruned)
  else (true, pruned ++ [now])

/-- Outcome of the outbound Telepo HTTP call, as the code distinguishes
them (src/app.py lines 281-293): a response with some status code and
body, or a raised transport exception. -/
inductive GatewayOutcome where
  | response (statusCode : Nat) (body : String)
  | exn (err : String)
deriving Repr, DecidableEq

/-- The value returned by set_on_call_number (a status dict in the code). -/
inductive ApiResult where
  | success (data : String)
  | error (message : String)
deriving Repr, DecidableEq

/-- Classification of the gateway outcome performed at src/app.py lines
282-293: non-200 status gives the fixed error message, a 200 status gives
success with the response body, an exception gives its text. -/
def telepoPush : GatewayOutcome → ApiResult
  | .response code body => if code ≠ 200 then .error "API update failed" else .success body
  | .exn e => .error e

def TELEPO_API_URL : String := "https://telepo-api.example.com/update"
def TELEPO_API_KEY : String := "your_api_key_here"

/-- The outbound HTTP request as built by the code. timeout mirrors the
timeout keyword of requests.post: some t would be a bounded timeout of t,
none is the library default of waiting indefinitely. -/
structure HttpRequest where
  url : String
  authBearer : String
  payloadPhone : String
  payloadDivision : String
  payloadUserId : Nat
  payloadUpdatedAt : Nat
  timeout : Option Nat
deriving Repr, DecidableEq

/-- The single request issued at src/app.py lines 272-281. The call
requests.post(api_url, json=payload, headers=headers) passes no timeout
keyword, hence timeout := none. -/
def telepoRequest (phone : String) (uid : Nat) (division : String) (now : Nat) : HttpRequest :=
  { url := TELEPO_API_URL
    authBearer := TELEPO_API_KEY
    payloadPhone := phone
    payloadDivision := division
    payloadUserId := uid
    payloadUpdatedAt := now
    timeout := none }

/-- The UPDATE of src/app.py lines 248-253: set end_time to now on every
open row of the division. -/
def closeOpenRows (rows : List OnCallRow) (division : String) (now : Nat) : List OnCallRow :=
  rows.map (fun o =>
    if o.end_time.isNone && o.division == division then { o with end_time := some now } else o)

/-- The INSERT of src/app.py lines 256-259: the new open row, start_time
defaulting to the current timestamp, end_time defaulting to NULL. -/
def newOnCallRow (phone : String) (uid : Nat) (division : String) (now : Nat) : OnCallRow :=
  { phone := phone, user_id := uid, division := division, start_time := now, end_time := none }

/-- The audit INSERT of src/app.py lines 262-265. -/
def onCallUpdateAudit (phone : String) (uid : Nat) (division ip : String) : AuditRow :=
  { event_type := "on_call_update"
    user_id := some uid
    details := "New on-call: " ++ phone ++ " (division=" ++ division ++ ")"
    ip_address := ip }

/-- The three statements of the set_on_call_number transaction, in program
order (src/app.py lines 248-265). -/
def oncallTxnStmts (phone : String) (uid : Nat) (division ip : String) (now : Nat) :
    List (DBState → DBState) :=
  [ fun db => { db with on_call := closeOpenRows db.on_call division now },
    fun db => { db with on_call := db.on_call ++ [newOnCallRow phone uid division now] },
    fun db => { db with audit_log := db.audit_log ++ [onCallUpdateAudit phone uid division ip] } ]

/-- Transaction runner with commit-or-rollback visibility: psycopg2 runs
the statements inside one transaction that becomes visible at conn.commit
(src/app.py line 267). dbFail = some e abstracts a raise (with text e) at
any of the statements or at the commit itself, after which the except
handler at line 295 runs and the connection closes without committing, so
nothing is visible. -/
def runTxn (stmts : List (DBState → DBState)) (dbFail : Option String) (db : DBState) :
    Except String DBState :=
  match dbFail with
  | some e => .error e
  | none => .ok (stmts.foldl (fun s f => f s) db)

/-- Result of one set_on_call_number call: the visible database state, the
returned status dict, and the outbound HTTP requests issued. -/
structure AssignOutcome where
  db : DBState
  result : ApiResult
  requests : List HttpRequest
deriving Repr, DecidableEq

/-- set_on_call_number (src/app.py lines 238-297): run the three-statement
transaction; on a database failure return the error dict built from the
exception text (line 297) with no visible state change and no outbound
call; on commit, issue the single Telepo request and classify its
outcome. -/
def set_on_call_number (db : DBState) (phone : String) (uid : Nat) (division ip : String)
    (now : Nat) (dbFail : Option String) (gw : GatewayOutcome) : AssignOutcome :=
  match runTxn (oncallTxnStmts phone uid division ip now) dbFail db with
  | .error e => ⟨db, .error e, []⟩
  | .ok db2 => ⟨db2, telepoPush gw, [telepoRequest phone uid division now]⟩

/-- A JSON response of the authenticate route, with its HTTP status code. -/
structure Response where
  httpCode : Nat
  status : String
  message : String
  telepo_result : Option ApiResult
deriving Repr, DecidableEq

/-- The 400 response of src/app.py line 179. -/
def respPinRequired : Response := ⟨400, "failure", "PIN required", none⟩

/-- The 403 response of src/app.py line 202, identical for every failed
lookup. -/
def respInvalidPin : Response := ⟨403, "failure", "Invalid PIN", none⟩

/-- The 429 response of src/app.py line 71. -/
def respRateLimited : Response := ⟨429, "error", "Rate limit exceeded", none⟩

/-- The failed_auth audit INSERT of src/app.py lines 195-198 (no user id). -/
def failedAuthAudit (callerId ip : String) : AuditRow :=
  ⟨"failed_auth", none, "Caller ID: " ++ callerId, ip⟩

/-- The successful_auth audit INSERT of src/app.py lines 216-219. -/
def successfulAuthAudit (uid : Nat) (callerId ip : String) : AuditRow :=
  ⟨"successful_auth", some uid, "Caller ID: " ++ callerId, ip⟩

/-- The UPDATE of src/app.py lines 210-213 setting last_login. -/
def updateLastLogin (users : List User) (uid : Nat) (now : Nat) : List User :=
  users.map (fun u => if u.id == uid then { u with last_login := some now } else u)

/-- The authenticate route body after admission (src/app.py lines
167-236). pin = none models a missing form field; callerId defaults to
"unknown" as at line 174. tAuth is the commit time of the authentication
transaction (lines 210-221), tAssign the timestamp the assignment
transaction reads; dbFail and gw parametrise the assignment transaction
failure and the gateway outcome. Note that when the user lookup succeeds
the code always wraps set_on_call_number into a 200 success response
(lines 228-232): set_on_call_number catches its own exceptions and
returns an error dict instead of raising, so the except branch at lines
234-236 is not reached by an assignment storage failure. -/
def authenticate (sha256 : String → String) (salt : String) (db : DBState)
    (pin : Option String) (callerId : Option String) (ip : String)
    (tAuth tAssign : Nat) (dbFail : Option String) (gw : GatewayOutcome) :
    DBState × Response :=
  let caller := callerId.getD "unknown"
  match pin with
  | none => (db, respPinRequired)
  | some p =>
    if p = "" then (db, respPinRequired)
    else
      let hashed := hash_pin sha256 salt p
      match db.users.find? (fun u => u.pin == hashed) with
      | none =>
        ({ db with audit_log := db.audit_log ++ [failedAuthAudit caller ip] }, respInvalidPin)
      | some u =>
        let db1 : DBState :=
          { db with users := updateLastLogin db.users u.id tAuth
                    audit_log := db.audit_log ++ [successfulAuthAudit u.id caller ip] }
        let out := set_on_call_number db1 u.phone u.id u.division ip tAssign dbFail gw
        (out.db,
         ⟨200, "success",
          "On-call number updated to " ++ u.phone ++ " (division: " ++ u.division ++ ")",
          some out.result⟩)

/-- The row shape returned by the current on-call query (src/app.py lines
310-318): o.phone, o.start_time, u.name, u.id, o.division. -/
structure OnCallView where
  phone : String
  start_time : Nat
  name : String
  user_id : Nat
  division : String
deriving Repr, DecidableEq

/-- ORDER BY start_time DESC LIMIT 1 over the joined rows: pick the row
with the greatest start_time (first listed among equals). -/
def pickLatest : List (OnCallRow × User) → Option (OnCallRow × User)
  | [] => none
  | x :: xs => some (xs.foldl (fun best y => if best.1.start_time < y.1.start_time then y else best) x)

/-- get_current_oncall (src/app.py lines 299-329): open rows of the
selected division (defaulting to retic_water), inner-joined with users on
user id, newest start_time first, limit one. Returns none where the route
answers 404. -/
def get_current_oncall (db : DBState) (division : Option String) : Option OnCallView :=
  let d := division.getD "retic_water"
  let openRows := db.on_call.filter (fun o => o.end_time.isNone && o.division == d)
  let joined := openRows.filterMap (fun o =>
    (db.users.find? (fun u => u.id == o.user_id)).map (fun u => (o, u)))
  (pickLatest joined).map (fun r => ⟨r.1.phone, r.1.start_time, r.2.name, r.2.id, r.1.division⟩)

/-- The full authentication entry point: the rate_limited decorator
(src/app.py lines 54-76) wrapping the authenticate handler, for one
source address whose record is rec. Returns the new record, the new
database state and the response. -/
def authenticate_endpoint (rec : List Nat) (db : DBState) (sha256 : String → String)
    (salt : String) (pin : Option String) (callerId : Option String) (ip : String)
    (now tAssign : Nat) (dbFail : Option String) (gw : GatewayOutcome) :
    List Nat × DBState × Response :=
  let c := rate_limited_check rec now
  if c.1 then
    let r := authenticate sha256 salt db pin callerId ip now tAssign dbFail gw
    (c.2, r.1, r.2)
  else (c.2, db, respRateLimited)

/-- One sequential operation of the system, for reachability statements:
an authenticate request, a direct set_on_call_number call, or a read-only
current on-call query. -/
inductive Op where
  | auth (sha256 : String → String) (salt : String) (pin : Option String)
      (callerId : Option String) (ip : String) (tAuth tAssign : Nat)
      (dbFail : Option String) (gw : GatewayOutcome)
  | assign (phone : String) (uid : Nat) (division ip : String) (now : Nat)
      (dbFail : Option String) (gw : GatewayOutcome)
  | query (division : Option String)

/-- Sequential step function: queries do not mutate the state. -/
def step (db : DBState) : Op → DBState
  | .auth sha256 salt pin callerId ip tAuth tAssign dbFail gw =>
      (authenticate sha256 salt db pin callerId ip tAuth tAssign dbFail gw).1
  | .assign phone uid division ip now dbFail gw =>
      (set_on_call_number db phone uid division ip now dbFail gw).db
  | .query _ => db

/-- Run a sequence of operations from a state. -/
def run (db : DBState) (ops : List Op) : DBState := ops.foldl step db

/-- Number of open ledger rows of a division. -/
def countOpen (db : DBState) (d : String) : Nat :=
  (db.on_call.filter (fun o => o.end_time.isNone && o.division == d)).length

/-- The committed effect of a successful set_on_call_number transaction:
every open row of the division closed, the new open row appended, the
on_call_update audit entry appended. -/
def assignApply (db : DBState) (phone : String) (uid : Nat) (division ip : String)
    (now : Nat) : DBState :=
  { db with
      on_call := closeOpenRows db.on_call division now ++ [newOnCallRow phone uid division now]
      audit_log := db.audit_log ++ [onCallUpdateAudit phone uid division ip] }

lemma set_on_call_none (db : DBState) (phone : String) (uid : Nat) (division ip : String)
    (now : Nat) (gw : GatewayOutcome) :
    set_on_call_number db phone uid division ip now none gw =
      ⟨assignApply db phone uid division ip now, telepoPush gw,
       [telepoRequest phone uid division now]⟩ := rfl

lemma set_on_call_some (db : DBState) (phone : String) (uid : Nat) (division ip : String)
    (now : Nat) (e : String) (gw : GatewayOutcome) :
    set_on_call_number db phone uid division ip now (some e) gw =
      ⟨db, .error e, []⟩ := rfl

lemma filter_closeOpenRows_self (rows : List OnCallRow) (dv : String) (now : Nat) :
    (closeOpenRows rows dv now).filter (fun o => o.end_time.isNone && o.division == dv) = [] := by
  induction rows with
  | nil => rfl
  | cons o rest ih =>
    by_cases h : (o.end_time.isNone && o.division == dv) = true
    · simp only [closeOpenRows, List.map_cons, if_pos h, List.filter_cons] at *
      simpa using ih
    · simp only [closeOpenRows, List.map_cons, if_neg h, List.filter_cons] at *
      exact ih

lemma filter_closeOpenRows_ne (rows : List OnCallRow) (dv d : String) (now : Nat)
    (hne : d ≠ dv) :
    (closeOpenRows rows dv now).filter (fun o => o.end_time.isNone && o.division == d) =
      rows.filter (fun o => o.end_time.isNone && o.division == d) := by
  induction rows with
  | nil => rfl
  | cons o rest ih =>
    by_cases h : (o.end_time.isNone && o.division == dv) = true
    · have hdvo : o.division = dv := by
        have := (Bool.and_eq_true ..).mp h
        exact eq_of_beq this.2
      have hfails : (o.end_time.isNone && o.division == d) = false := by
        rw [hdvo]
        simp [beq_eq_false_iff_ne, Ne.symm hne]
      simp only [closeOpenRows, List.map_cons, if_pos h, List.filter_cons] at *
      rw [if_neg (by simp), if_neg (by simp [hfails])]
      exact ih
    · simp only [closeOpenRows, List.map_cons, if_neg h, List.filter_cons] at *
      rw [ih]

lemma countOpen_assignApply (db : DBState) (phone : String) (uid : Nat)
    (division ip : String) (now : Nat) (d : String) (h : countOpen db d ≤ 1) :
    countOpen (assignApply db phone uid division ip now) d ≤ 1 := by
  by_cases hd : d = division
  · subst hd
    simp [countOpen, assignApply, List.filter_append, filter_closeOpenRows_self,
      newOnCallRow]
  · have hnew : ((division : String) == d) = false := by
      simp [beq_eq_false_iff_ne, Ne.symm hd]
    simp only [countOpen, assignApply, List.filter_append,
      filter_closeOpenRows_ne db.on_call division d now hd] at *
    simpa [List.filter, newOnCallRow, hnew] using h

lemma countOpen_set_on_call (db : DBState) (phone : String) (uid : Nat)
    (division ip : String) (now : Nat) (dbFail : Option String) (gw : GatewayOutcome)
    (d : String) (h : countOpen db d ≤ 1) :
    countOpen (set_on_call_number db phone uid division ip now dbFail gw).db d ≤ 1 := by
  cases dbFail with
  | none => rw [set_on_call_none]; exact countOpen_assignApply db phone uid division ip now d h
  | some e => rw [set_on_call_some]; exact h

lemma countOpen_authenticate (sha256 : String → String) (salt : String) (db : DBState)
    (pin : Option String) (callerId : Option String) (ip : String)
    (tAuth tAssign : Nat) (dbFail : Option String) (gw : GatewayOutcome)
    (d : String) (h : countOpen db d ≤ 1) :
    countOpen (authenticate sha256 salt db pin callerId ip tAuth tAssign dbFail gw).1 d ≤ 1 := by
  unfold authenticate
  cases pin with
  | none => exact h
  | some p =>
    by_cases hp : p = ""
    · simp only [if_pos hp]; exact h
    · simp only [if_neg hp]
      cases hf : db.users.find? (fun u => u.pin == hash_pin sha256 salt p) with
      | none => simpa [countOpen] using h
      | some u =>
        simp only []
        exact countOpen_set_on_call _ _ _ _ _ _ _ _ _ (by simpa [countOpen] using h)

lemma countOpen_step (db : DBState) (op : Op) (d : String) (h : countOpen db d ≤ 1) :
    countOpen (step db op) d ≤ 1 := by
  cases op with
  | auth sha256 salt pin callerId ip tAuth tAssign dbFail gw =>
    exact countOpen_authenticate sha256 salt db pin callerId ip tAuth tAssign dbFail gw d h
  | assign phone uid division ip now dbFail gw =>
    exact countOpen_set_on_call db phone uid division ip now dbFail gw d h
  | query _ => exact h

lemma countOpen_run (db : DBState) (ops : List Op) (d : String) (h : countOpen db d ≤ 1) :
    countOpen (run db ops) d ≤ 1 := by
  induction ops generalizing db with
  | nil => exact h
  | cons op rest ih => exact ih (step db op) (countOpen_step db op d h)

lemma get_current_oncall_assignApply (db : DBState) (phone : String) (uid : Nat)
    (dv ip : String) (now : Nat) (u : User)
    (hu : db.users.find? (fun x => x.id == uid) = some u) :
    get_current_oncall (assignApply db phone uid dv ip now) (some dv) =
      some ⟨phone, now, u.name, u.id, dv⟩ := by
  simp [get_current_oncall, assignApply, newOnCallRow, hu, pickLatest,
    filter_closeOpenRows_self]

/-- The state committed by the first transaction of the authenticate route
(src/app.py lines 210-221): last_login updated and the successful_auth
entry appended. -/
def authCommitState (db : DBState) (u : User) (caller ip : String) (tAuth : Nat) : DBState :=
  { db with users := updateLastLogin db.users u.id tAuth
            audit_log := db.audit_log ++ [successfulAuthAudit u.id caller ip] }

lemma authenticate_found (sha256 : String → String) (salt : String) (db : DBState)
    (p : String) (callerId : Option String) (ip : String) (tAuth tAssign : Nat)
    (dbFail : Option String) (gw : GatewayOutcome) (u : User) (hp : p ≠ "")
    (hf : db.users.find? (fun x => x.pin == hash_pin sha256 salt p) = some u) :
    authenticate sha256 salt db (some p) callerId ip tAuth tAssign dbFail gw =
      ((set_on_call_number (authCommitState db u (callerId.getD "unknown") ip tAuth)
          u.phone u.id u.division ip tAssign dbFail gw).db,
       ⟨200, "success",
        "On-call number updated to " ++ u.phone ++ " (division: " ++ u.division ++ ")",
        some (set_on_call_number (authCommitState db u (callerId.getD "unknown") ip tAuth)
          u.phone u.id u.division ip tAssign dbFail gw).result⟩) := by
  simp only [authenticate, authCommitState, if_neg hp, hf]

lemma authenticate_notfound (sha256 : String → String) (salt : String) (db : DBState)
    (p : String) (callerId : Option String) (ip : String) (tAuth tAssign : Nat)
    (dbFail : Option String) (gw : GatewayOutcome) (hp : p ≠ "")
    (hf : db.users.find? (fun x => x.pin == hash_pin sha256 salt p) = none) :
    authenticate sha256 salt db (some p) callerId ip tAuth tAssign dbFail gw =
      ({ db with audit_log := db.audit_log ++ [failedAuthAudit (callerId.getD "unknown") ip] },
       respInvalidPin) := by
  simp only [authenticate, if_neg hp, hf]

lemma authenticate_nopin (sha256 : String → String) (salt : String) (db : DBState)
    (pin : Option String) (callerId : Option String) (ip : String) (tAuth tAssign : Nat)
    (dbFail : Option String) (gw : GatewayOutcome) (hp : pin = none ∨ pin = some "") :
    authenticate sha256 salt db pin callerId ip tAuth tAssign dbFail gw =
      (db, respPinRequired) := by
  cases hp with
  | inl h => subst h; rfl
  | inr h => subst h; rfl

/-- C1: at every state reachable by a sequence of authenticate, assign and
query operations run sequentially from the empty database, each division
has at most one open on_call row; and one set_on_call_number call, which
closes every open row of its division and inserts exactly one new open row
in the same committed transaction, preserves this bound from any state
satisfying it. -/
theorem ledger_at_most_one_open :
    (∀ ops d, countOpen (run emptyDB ops) d ≤ 1) ∧
    (∀ db phone uid division ip now dbFail gw d, countOpen db d ≤ 1 →
      countOpen (set_on_call_number db phone uid division ip now dbFail gw).db d ≤ 1) :=
  ⟨fun ops d => countOpen_run emptyDB ops d (by simp [countOpen, emptyDB]),
   fun db phone uid division ip now dbFail gw d h =>
     countOpen_set_on_call db phone uid division ip now dbFail gw d h⟩

/-- Witness for C1 at a concrete state and assignment. -/
theorem ledger_at_most_one_open_witness :
    countOpen (set_on_call_number emptyDB "+15551234567" 1 "retic_water" "10.0.0.1" 5 none
      (GatewayOutcome.exn "timeout")).db "retic_water" ≤ 1 :=
  ledger_at_most_one_open.2 emptyDB "+15551234567" 1 "retic_water" "10.0.0.1" 5 none
    (GatewayOutcome.exn "timeout") "retic_water" (by decide)

/-- C2: the three statements of set_on_call_number commit as one atomic
unit. When the transaction commits, the visible state carries all three
effects at once: the open rows of the division closed, the new open row
inserted, the on_call_update audit entry appended. When the storage step
fails, the visible state is exactly the prior state (no closed-but-not-
replaced row, no ledger change without its audit entry) and the error
result is returned. -/
theorem assign_three_steps_atomic (db : DBState) (phone : String) (uid : Nat)
    (division ip : String) (now : Nat) (gw : GatewayOutcome) :
    ((set_on_call_number db phone uid division ip now none gw).db =
      { db with
          on_call := closeOpenRows db.on_call division now ++
            [newOnCallRow phone uid division now]
          audit_log := db.audit_log ++ [onCallUpdateAudit phone uid division ip] }) ∧
    (∀ e, (set_on_call_number db phone uid division ip now (some e) gw).db = db ∧
      (set_on_call_number db phone uid division ip now (some e) gw).result =
        ApiResult.error e) :=
  ⟨rfl, fun _ => ⟨rfl, rfl⟩⟩

/-- Concrete fixture mirroring the first seeded user of src/seed_db.py,
with the digest taken under the identity hash and empty salt. -/
def aliceUser : User :=
  ⟨1, "1234", "+15551234567", "Admin User", some "admin@example.com", "retic_water", none⟩

/-- Concrete fixture database holding only aliceUser. -/
def seedDB : DBState := ⟨[aliceUser], [], []⟩

/-- C3 counterexample: with a matching PIN and a failing assignment
transaction (storage unavailable), the authentication flow still returns
HTTP 200 with status success, the error only being carried inside
telepo_result, while the ledger indeed did not change. set_on_call_number
catches its own database exception at src/app.py lines 295-297 and
returns an error dict instead of raising, so the 500 branch of
authenticate (lines 234-236) is not taken. -/
theorem assign_failure_returns_success_cex :
    (authenticate (fun s => s) "" seedDB (some "1234") none "10.0.0.1" 3 4
      (some "storage unavailable") (GatewayOutcome.exn "unreached")).2.httpCode = 200 ∧
    (authenticate (fun s => s) "" seedDB (some "1234") none "10.0.0.1" 3 4
      (some "storage unavailable") (GatewayOutcome.exn "unreached")).2.status = "success" ∧
    (authenticate (fun s => s) "" seedDB (some "1234") none "10.0.0.1" 3 4
      (some "storage unavailable") (GatewayOutcome.exn "unreached")).2.telepo_result =
      some (ApiResult.error "storage unavailable") ∧
    (authenticate (fun s => s) "" seedDB (some "1234") none "10.0.0.1" 3 4
      (some "storage unavailable") (GatewayOutcome.exn "unreached")).1.on_call = [] := by
  refine ⟨rfl, rfl, rfl, rfl⟩

/-- C3 amended: when the atomic ledger transition inside assign fails, the
assign call returns an error result and leaves the ledger unchanged, but
the authentication flow wraps it into a 200 success response whose
telepo_result field carries the storage error text; no server-error
response is produced. -/
theorem assign_failure_wrapped_in_success (sha256 : String → String) (salt : String)
    (db : DBState) (p : String) (callerId : Option String) (ip : String)
    (tAuth tAssign : Nat) (e : String) (gw : GatewayOutcome) (u : User) (hp : p ≠ "")
    (hf : db.users.find? (fun x => x.pin == hash_pin sha256 salt p) = some u) :
    (authenticate sha256 salt db (some p) callerId ip tAuth tAssign (some e) gw).2 =
      ⟨200, "success",
       "On-call number updated to " ++ u.phone ++ " (division: " ++ u.division ++ ")",
       some (ApiResult.error e)⟩ ∧
    (authenticate sha256 salt db (some p) callerId ip tAuth tAssign (some e) gw).1 =
      authCommitState db u (callerId.getD "unknown") ip tAuth := by
  rw [authenticate_found sha256 salt db p callerId ip tAuth tAssign (some e) gw u hp hf]
  rw [set_on_call_some]
  exact ⟨rfl, rfl⟩

/-- Witness for the amended C3 at the concrete fixture. -/
theorem assign_failure_wrapped_in_success_witness :
    (authenticate (fun s => s) "" seedDB (some "1234") none "10.0.0.1" 3 4
      (some "db down") (GatewayOutcome.exn "unreached")).2 =
      ⟨200, "success",
       "On-call number updated to " ++ aliceUser.phone ++
         " (division: " ++ aliceUser.division ++ ")",
       some (ApiResult.error "db down")⟩ ∧
    (authenticate (fun s => s) "" seedDB (some "1234") none "10.0.0.1" 3 4
      (some "db down") (GatewayOutcome.exn "unreached")).1 =
      authCommitState seedDB aliceUser "unknown" "10.0.0.1" 3 :=
  assign_failure_wrapped_in_success (fun s => s) "" seedDB "1234" none "10.0.0.1" 3 4
    "db down" (GatewayOutcome.exn "unreached") aliceUser (by decide) (by decide)

/-- C4: for a committed assignment, the resulting database state is the
same whatever the gateway outcome is, the gateway outcome is only attached
to the returned result, and the current on-call query for the division
afterwards returns the new assignment (phone and start time of the new
open row) regardless of that outcome. -/
theorem gateway_outcome_never_undoes (db : DBState) (phone : String) (uid : Nat)
    (division ip : String) (now : Nat) (gw gw2 : GatewayOutcome) (u : User)
    (hu : db.users.find? (fun x => x.id == uid) = some u) :
    (set_on_call_number db phone uid division ip now none gw).db =
      (set_on_call_number db phone uid division ip now none gw2).db ∧
    (set_on_call_number db phone uid division ip now none gw).result = telepoPush gw ∧
    get_current_oncall (set_on_call_number db phone uid division ip now none gw).db
      (some division) = some ⟨phone, now, u.name, u.id, division⟩ := by
  rw [set_on_call_none, set_on_call_none]
  exact ⟨rfl, rfl, get_current_oncall_assignApply db phone uid division ip now u hu⟩

/-- Witness for C4 at the concrete fixture, with a rejecting gateway on
one side and an unreachable gateway on the other. -/
theorem gateway_outcome_never_undoes_witness :
    (set_on_call_number seedDB "+15551234567" 1 "retic_water" "10.0.0.1" 7 none
      (GatewayOutcome.response 500 "rejected")).db =
      (set_on_call_number seedDB "+15551234567" 1 "retic_water" "10.0.0.1" 7 none
        (GatewayOutcome.exn "connection refused")).db ∧
    (set_on_call_number seedDB "+15551234567" 1 "retic_water" "10.0.0.1" 7 none
      (GatewayOutcome.response 500 "rejected")).result =
      telepoPush (GatewayOutcome.response 500 "rejected") ∧
    get_current_oncall (set_on_call_number seedDB "+15551234567" 1 "retic_water" "10.0.0.1" 7
      none (GatewayOutcome.response 500 "rejected")).db (some "retic_water") =
      some ⟨"+15551234567", 7, aliceUser.name, aliceUser.id, "retic_water"⟩ :=
  gateway_outcome_never_undoes seedDB "+15551234567" 1 "retic_water" "10.0.0.1" 7
    (GatewayOutcome.response 500 "rejected") (GatewayOutcome.exn "connection refused")
    aliceUser (by decide)

lemma exists_find_id_updateLastLogin (l : List User) (uid : Nat) (t : Nat)
    (h : ∃ x ∈ l, x.id = uid) :
    ∃ w, (updateLastLogin l uid t).find? (fun x => x.id == uid) = some w := by
  induction l with
  | nil => simp at h
  | cons x rest ih =>
    by_cases hx : x.id = uid
    · refine ⟨{ x with last_login := some t }, ?_⟩
      have hxb : (x.id == uid) = true := by simp [hx]
      have hhead : updateLastLogin (x :: rest) uid t =
          { x with last_login := some t } :: updateLastLogin rest uid t := by
        simp only [updateLastLogin, List.map_cons, if_pos hxb]
      rw [hhead]
      exact List.find?_cons_of_pos _ (by simp [hx])
    · have hxb : ¬ ((x.id == uid) = true) := by simp [hx]
      have h2 : ∃ y ∈ rest, y.id = uid := by
        obtain ⟨y, hy, hyid⟩ := h
        rcases List.mem_cons.mp hy with rfl | hmem
        · exact absurd hyid hx
        · exact ⟨y, hmem, hyid⟩
      obtain ⟨w, hw⟩ := ih h2
      refine ⟨w, ?_⟩
      have hhead : updateLastLogin (x :: rest) uid t = x :: updateLastLogin rest uid t := by
        simp only [updateLastLogin, List.map_cons, if_neg hxb]
      rw [hhead]
      have hstep : List.find? (fun y => y.id == uid) (x :: updateLastLogin rest uid t) =
          List.find? (fun y => y.id == uid) (updateLastLogin rest uid t) :=
        List.find?_cons_of_neg _ hxb
      rw [hstep]
      exact hw

/-- C5: authenticating with a PIN whose digest the stored user u matches,
then querying current on-call for the division of u, returns the phone
number of u with a start timestamp at least the authentication time. -/
theorem correct_pin_then_query (sha256 : String → String) (salt : String) (db : DBState)
    (p : String) (callerId : Option String) (ip : String) (tAuth tAssign : Nat)
    (gw : GatewayOutcome) (u : User) (hp : p ≠ "")
    (hf : db.users.find? (fun x => x.pin == hash_pin sha256 salt p) = some u)
    (ht : tAuth ≤ tAssign) :
    ∃ v : OnCallView,
      get_current_oncall
        (authenticate sha256 salt db (some p) callerId ip tAuth tAssign none gw).1
        (some u.division) = some v ∧
      v.phone = u.phone ∧ tAuth ≤ v.start_time := by
  rw [authenticate_found sha256 salt db p callerId ip tAuth tAssign none gw u hp hf]
  rw [set_on_call_none]
  have hmem : u ∈ db.users := List.mem_of_find?_eq_some hf
  obtain ⟨w, hw⟩ :=
    exists_find_id_updateLastLogin db.users u.id tAuth ⟨u, hmem, rfl⟩
  have hw2 : (authCommitState db u (callerId.getD "unknown") ip tAuth).users.find?
      (fun x => x.id == u.id) = some w := hw
  exact ⟨⟨u.phone, tAssign, w.name, w.id, u.division⟩,
    get_current_oncall_assignApply _ u.phone u.id u.division ip tAssign w hw2, rfl, ht⟩

/-- Witness for C5 at the concrete fixture: PIN 1234 at authentication
time 3, assignment committed at time 4. -/
theorem correct_pin_then_query_witness :
    ∃ v : OnCallView,
      get_current_oncall
        (authenticate (fun s => s) "" seedDB (some "1234") none "10.0.0.1" 3 4 none
          (GatewayOutcome.response 200 "ok")).1
        (some aliceUser.division) = some v ∧
      v.phone = aliceUser.phone ∧ 3 ≤ v.start_time :=
  correct_pin_then_query (fun s => s) "" seedDB "1234" none "10.0.0.1" 3 4
    (GatewayOutcome.response 200 "ok") aliceUser (by decide) (by decide) (by decide)

/-- The pruning rule stated by the claim, taken literally: discard exactly
the entries older than now - W, that is keep every entry whose timestamp
is at least now - RATE_PERIOD. Kept for comparison with the pruning the
code performs. -/
def claimPruneWindow (rec : List Nat) (now : Nat) : List Nat :=
  rec.filter (fun t => !(t < now - RATE_PERIOD))

/-- C6 counterexample: at now = 60 with five recorded timestamps 0, each
entry is aged exactly the window length, so none is older than
now - W = 0 and the claim retains all five; with five remaining the claim
then requires rejection without recording. The code instead discards
entries of age greater than or equal to W, so it drops all five, accepts,
and records the attempt. -/
theorem rate_limit_prune_boundary_cex :
    RATE_LIMIT ≤ (claimPruneWindow [0, 0, 0, 0, 0] 60).length ∧
    (rate_limited_check [0, 0, 0, 0, 0] 60).1 = true ∧
    (rate_limited_check [0, 0, 0, 0, 0] 60).2 = [60] := by decide

/-- Sequential runs of the admission check for one source address: the
list of decisions and the final record. -/
def rateLimiterRun : List Nat → List Nat → List Bool × List Nat
  | record, [] => ([], record)
  | record, t :: ts =>
    let c := rate_limited_check record t
    let r := rateLimiterRun c.2 ts
    (c.1 :: r.1, r.2)

/-- C6 amended: on each call the code discards the entries whose age is at
least W = 60 (not only those strictly older than now - W); if at least
N = 5 entries remain the request is rejected and its timestamp is not
recorded, else now is appended and the request is accepted; and the 6th
attempt from one address strictly within the window is rejected. -/
theorem rate_limited_check_spec :
    (∀ record now,
      ((rate_limited_check record now).1 = false ↔
        RATE_LIMIT ≤ (pruneWindow record now).length) ∧
      ((rate_limited_check record now).1 = false →
        (rate_limited_check record now).2 = pruneWindow record now) ∧
      ((rate_limited_check record now).1 = true →
        (rate_limited_check record now).2 = pruneWindow record now ++ [now]) ∧
      (∀ t, RATE_PERIOD ≤ now - t → t ∉ (rate_limited_check record now).2)) ∧
    (∀ t1 t2 t3 t4 t5 t6 : Nat, t1 ≤ t2 → t2 ≤ t3 → t3 ≤ t4 → t4 ≤ t5 → t5 ≤ t6 →
      t6 - t1 < RATE_PERIOD →
      (rateLimiterRun [] [t1, t2, t3, t4, t5, t6]).1 =
        [true, true, true, true, true, false]) := by
  constructor
  · intro record now
    by_cases h : RATE_LIMIT ≤ (pruneWindow record now).length
    · refine ⟨by simp [rate_limited_check, h], fun _ => by simp [rate_limited_check, h],
        fun habs => by simp [rate_limited_check, h] at habs, ?_⟩
      intro t ht hmem
      simp only [rate_limited_check, if_pos h] at hmem
      have := (List.mem_filter.mp hmem).2
      simp only [decide_eq_true_eq] at this
      omega
    · refine ⟨by simp [rate_limited_check, h], fun habs => by
        simp [rate_limited_check, h] at habs, fun _ => by simp [rate_limited_check, h], ?_⟩
      intro t ht hmem
      simp only [rate_limited_check, if_neg h] at hmem
      rcases List.mem_append.mp hmem with hin | hlast
      · have := (List.mem_filter.mp hin).2
        simp only [decide_eq_true_eq] at this
        omega
      · have : t = now := by simpa using hlast
        subst this
        simp only [RATE_PERIOD] at ht
        omega
  · intro t1 t2 t3 t4 t5 t6 h12 h23 h34 h45 h56 hwin
    have h16 : t6 - t1 < 60 := by simpa [RATE_PERIOD] using hwin
    have p2 : pruneWindow [t1] t2 = [t1] := by
      simp only [pruneWindow, List.filter_cons, List.filter_nil]
      rw [if_pos (by simp only [RATE_PERIOD, decide_eq_true_eq]; omega)]
    have p3 : pruneWindow [t1, t2] t3 = [t1, t2] := by
      simp only [pruneWindow, List.filter_cons, List.filter_nil]
      rw [if_pos (by simp only [RATE_PERIOD, decide_eq_true_eq]; omega),
        if_pos (by simp only [RATE_PERIOD, decide_eq_true_eq]; omega)]
    have p4 : pruneWindow [t1, t2, t3] t4 = [t1, t2, t3] := by
      simp only [pruneWindow, List.filter_cons, List.filter_nil]
      rw [if_pos (by simp only [RATE_PERIOD, decide_eq_true_eq]; omega),
        if_pos (by simp only [RATE_PERIOD, decide_eq_true_eq]; omega),
        if_pos (by simp only [RATE_PERIOD, decide_eq_true_eq]; omega)]
    have p5 : pruneWindow [t1, t2, t3, t4] t5 = [t1, t2, t3, t4] := by
      simp only [pruneWindow, List.filter_cons, List.filter_nil]
      rw [if_pos (by simp only [RATE_PERIOD, decide_eq_true_eq]; omega),
        if_pos (by simp only [RATE_PERIOD, decide_eq_true_eq]; omega),
        if_pos (by simp only [RATE_PERIOD, decide_eq_true_eq]; omega),
        if_pos (by simp only [RATE_PERIOD, decide_eq_true_eq]; omega)]
    have p6 : pruneWindow [t1, t2, t3, t4, t5] t6 = [t1, t2, t3, t4, t5] := by
      simp only [pruneWindow, List.filter_cons, List.filter_nil]
      rw [if_pos (by simp only [RATE_PERIOD, decide_eq_true_eq]; omega),
        if_pos (by simp only [RATE_PERIOD, decide_eq_true_eq]; omega),
        if_pos (by simp only [RATE_PERIOD, decide_eq_true_eq]; omega),
        if_pos (by simp only [RATE_PERIOD, decide_eq_true_eq]; omega),
        if_pos (by simp only [RATE_PERIOD, decide_eq_true_eq]; omega)]
    have s1 : rate_limited_check [] t1 = (true, [t1]) := by
      simp [rate_limited_check, pruneWindow, RATE_LIMIT]
    have s2 : rate_limited_check [t1] t2 = (true, [t1, t2]) := by
      simp only [rate_limited_check, p2]
      rw [if_neg (by simp [RATE_LIMIT])]
      rfl
    have s3 : rate_limited_check [t1, t2] t3 = (true, [t1, t2, t3]) := by
      simp only [rate_limited_check, p3]
      rw [if_neg (by simp [RATE_LIMIT])]
      rfl
    have s4 : rate_limited_check [t1, t2, t3] t4 = (true, [t1, t2, t3, t4]) := by
      simp only [rate_limited_check, p4]
      rw [if_neg (by simp [RATE_LIMIT])]
      rfl
    have s5 : rate_limited_check [t1, t2, t3, t4] t5 = (true, [t1, t2, t3, t4, t5]) := by
      simp only [rate_limited_check, p5]
      rw [if_neg (by simp [RATE_LIMIT])]
      rfl
    have s6 : rate_limited_check [t1, t2, t3, t4, t5] t6 = (false, [t1, t2, t3, t4, t5]) := by
      simp only [rate_limited_check, p6]
      rw [if_pos (by simp [RATE_LIMIT])]
    simp only [rateLimiterRun, s1, s2, s3, s4, s5, s6]

/-- Witness for the amended C6: six calls at times 0 to 5 from an empty
record, the sixth rejected. -/
theorem rate_limited_check_spec_witness :
    (rateLimiterRun [] [0, 1, 2, 3, 4, 5]).1 = [true, true, true, true, true, false] :=
  rate_limited_check_spec.2 0 1 2 3 4 5 (by decide) (by decide) (by decide) (by decide)
    (by decide) (by decide)

/-- C7: an authentication request with a missing or empty PIN returns the
400 PIN-required response, a client error distinct from the 403
authentication failure; the database state is returned unchanged (no
audit entry, no ledger change) and the response does not depend on the
digest function, the salt or the database contents, so no digest is
computed and no lookup is consulted. -/
theorem missing_pin_client_error (sha256 sha2 : String → String) (salt salt2 : String)
    (db db2 : DBState) (pin : Option String) (callerId : Option String) (ip : String)
    (tAuth tAssign : Nat) (dbFail : Option String) (gw : GatewayOutcome)
    (hp : pin = none ∨ pin = some "") :
    (authenticate sha256 salt db pin callerId ip tAuth tAssign dbFail gw).1 = db ∧
    (authenticate sha256 salt db pin callerId ip tAuth tAssign dbFail gw).2 =
      respPinRequired ∧
    (authenticate sha256 salt db pin callerId ip tAuth tAssign dbFail gw).2 =
      (authenticate sha2 salt2 db2 pin callerId ip tAuth tAssign dbFail gw).2 ∧
    respPinRequired ≠ respInvalidPin := by
  rw [authenticate_nopin sha256 salt db pin callerId ip tAuth tAssign dbFail gw hp,
    authenticate_nopin sha2 salt2 db2 pin callerId ip tAuth tAssign dbFail gw hp]
  exact ⟨rfl, rfl, rfl, by decide⟩

/-- Witness for C7 with a missing PIN at the concrete fixture. -/
theorem missing_pin_client_error_witness :
    (authenticate (fun s => s) "" seedDB none none "10.0.0.1" 3 4 none
      (GatewayOutcome.response 200 "ok")).1 = seedDB ∧
    (authenticate (fun s => s) "" seedDB none none "10.0.0.1" 3 4 none
      (GatewayOutcome.response 200 "ok")).2 = respPinRequired ∧
    (authenticate (fun s => s) "" seedDB none none "10.0.0.1" 3 4 none
      (GatewayOutcome.response 200 "ok")).2 =
      (authenticate (fun s => s ++ "x") "pepper" emptyDB none none "10.0.0.1" 3 4 none
        (GatewayOutcome.response 200 "ok")).2 ∧
    respPinRequired ≠ respInvalidPin :=
  missing_pin_client_error (fun s => s) (fun s => s ++ "x") "" "pepper" seedDB emptyDB
    none none "10.0.0.1" 3 4 none (GatewayOutcome.response 200 "ok") (Or.inl rfl)

/-- C8: an authentication attempt whose digest matches no stored user
leaves the ledger and the users untouched, appends exactly the one
failed_auth audit entry, and returns the one fixed generic 403 rejection,
a constant that carries no information about why the lookup failed. -/
theorem wrong_pin_one_audit_no_ledger (sha256 : String → String) (salt : String)
    (db : DBState) (p : String) (callerId : Option String) (ip : String)
    (tAuth tAssign : Nat) (dbFail : Option String) (gw : GatewayOutcome) (hp : p ≠ "")
    (hf : db.users.find? (fun x => x.pin == hash_pin sha256 salt p) = none) :
    (authenticate sha256 salt db (some p) callerId ip tAuth tAssign dbFail gw).1.on_call =
      db.on_call ∧
    (authenticate sha256 salt db (some p) callerId ip tAuth tAssign dbFail gw).1.users =
      db.users ∧
    (authenticate sha256 salt db (some p) callerId ip tAuth tAssign dbFail gw).1.audit_log =
      db.audit_log ++ [failedAuthAudit (callerId.getD "unknown") ip] ∧
    (failedAuthAudit (callerId.getD "unknown") ip).event_type = "failed_auth" ∧
    (authenticate sha256 salt db (some p) callerId ip tAuth tAssign dbFail gw).2 =
      respInvalidPin := by
  rw [authenticate_notfound sha256 salt db p callerId ip tAuth tAssign dbFail gw hp hf]
  exact ⟨rfl, rfl, rfl, rfl, rfl⟩

/-- Witness for C8: PIN 0000 matches no stored digest in the fixture. -/
theorem wrong_pin_one_audit_no_ledger_witness :
    (authenticate (fun s => s) "" seedDB (some "0000") (some "radio7") "10.0.0.1" 3 4 none
      (GatewayOutcome.response 200 "ok")).1.on_call = seedDB.on_call ∧
    (authenticate (fun s => s) "" seedDB (some "0000") (some "radio7") "10.0.0.1" 3 4 none
      (GatewayOutcome.response 200 "ok")).1.users = seedDB.users ∧
    (authenticate (fun s => s) "" seedDB (some "0000") (some "radio7") "10.0.0.1" 3 4 none
      (GatewayOutcome.response 200 "ok")).1.audit_log =
      seedDB.audit_log ++ [failedAuthAudit ((some "radio7").getD "unknown") "10.0.0.1"] ∧
    (failedAuthAudit ((some "radio7").getD "unknown") "10.0.0.1").event_type =
      "failed_auth" ∧
    (authenticate (fun s => s) "" seedDB (some "0000") (some "radio7") "10.0.0.1" 3 4 none
      (GatewayOutcome.response 200 "ok")).2 = respInvalidPin :=
  wrong_pin_one_audit_no_ledger (fun s => s) "" seedDB "0000" (some "radio7") "10.0.0.1"
    3 4 none (GatewayOutcome.response 200 "ok") (by decide) (by decide)

/-- C9 counterexample: the outbound Telepo request built by the code
carries no finite timeout at all: requests.post at src/app.py line 281 is
called without a timeout argument, so no bounded timeout exists for the
request. -/
theorem telepo_no_timeout_cex :
    ¬ ∃ t : Nat, (telepoRequest "+15551234567" 1 "retic_water" 5).timeout = some t := by
  simp [telepoRequest]

/-- C9 amended: the Notification Gateway call is a single synchronous
outbound request (exactly one request is issued per committed
assignment), but it is performed with no timeout bound: the code passes
no timeout to requests.post, so a stalled external provider can hold the
authentication request open indefinitely. -/
theorem telepo_single_request_unbounded (db : DBState) (phone : String) (uid : Nat)
    (division ip : String) (now : Nat) (gw : GatewayOutcome) :
    (set_on_call_number db phone uid division ip now none gw).requests =
      [telepoRequest phone uid division now] ∧
    (set_on_call_number db phone uid division ip now none gw).requests.length = 1 ∧
    (telepoRequest phone uid division now).timeout = none :=
  ⟨rfl, rfl, rfl⟩

/-- C10: the admission check runs before the handler, so an admitted
request consumes a rate-limit slot (now is appended to the record)
whatever the handler then does: the PIN may be missing, empty or wrong,
the record still grows by now. Only an admission-rejected request appends
nothing: its record is the pruned prior record and the database and
response are the untouched state and the 429 rejection. -/
theorem admission_slot_always_consumed (record : List Nat) (db : DBState)
    (sha256 : String → String) (salt : String) (pin : Option String)
    (callerId : Option String) (ip : String) (now tAssign : Nat)
    (dbFail : Option String) (gw : GatewayOutcome) :
    ((pruneWindow record now).length < RATE_LIMIT →
      (authenticate_endpoint record db sha256 salt pin callerId ip now tAssign dbFail gw).1 =
        pruneWindow record now ++ [now]) ∧
    (RATE_LIMIT ≤ (pruneWindow record now).length →
      (authenticate_endpoint record db sha256 salt pin callerId ip now tAssign dbFail gw).1 =
        pruneWindow record now ∧
      (authenticate_endpoint record db sha256 salt pin callerId ip now tAssign dbFail
        gw).2.1 = db ∧
      (authenticate_endpoint record db sha256 salt pin callerId ip now tAssign dbFail
        gw).2.2 = respRateLimited) := by
  constructor
  · intro h
    have hc : rate_limited_check record now = (true, pruneWindow record now ++ [now]) := by
      simp [rate_limited_check, Nat.not_le.mpr h]
    simp [authenticate_endpoint, hc]
  · intro h
    have hc : rate_limited_check record now = (false, pruneWindow record now) := by
      simp [rate_limited_check, h]
    simp [authenticate_endpoint, hc]

/-- Witness for C10: an admitted request with a missing PIN still consumes
the slot at time 0 from an empty record. -/
theorem admission_slot_always_consumed_witness :
    (authenticate_endpoint [] seedDB (fun s => s) "" none none "10.0.0.1" 0 0 none
      (GatewayOutcome.response 200 "ok")).1 = pruneWindow [] 0 ++ [0] :=
  (admission_slot_always_consumed [] seedDB (fun s => s) "" none none "10.0.0.1" 0 0 none
    (GatewayOutcome.response 200 "ok")).1 (by decide)

end CallShift
